import Mathlib

/-!
A shallow embedding of the workout-compilation and schedule-arithmetic core of
the `garmin-training-plan` repository (`garmin_workout_builder.py`,
`sync_garmin.py`), together with theorems settling a list of claims about it.

Python strings are modelled as `String` / `List Char`; Python numbers are
modelled exactly: `int` as `ℤ`/`ℕ` and `float` arithmetic as exact rationals
`ℚ`.  Python code that can raise is modelled with `Option`/`Except`:
`Except PyErr` distinguishes `ValueError`-style parse failures from
`ZeroDivisionError`.  YAML scalars that may be either a number or a string are
modelled by `Val`; a missing dictionary key is `Option.none`.
-/

/- The Batteries `Rat` operations are `@[irreducible]` only as an unfolding
hint; reopening them for this file lets concrete workouts be evaluated by
`decide`. -/
attribute [local semireducible] Rat.mul Rat.add Rat.sub Rat.inv Rat.ofScientific

/-- The kinds of Python exception relevant to the embedded code. -/
inductive PyErr where
  /-- Python `ValueError` / `TypeError` raised while parsing a malformed string. -/
  | parseError
  /-- Python `ZeroDivisionError`. -/
  | zeroDivisionError
  /-- Python `ValueError` raised explicitly (unknown weekday name). -/
  | valueError
  deriving DecidableEq

deriving instance DecidableEq for Except

/-- A YAML scalar that may be a number or a string (the `distance` fields). -/
inductive Val where
  | num (q : ℚ)
  | str (s : String)
  deriving DecidableEq

/-! ### Python string primitives, embedded on `List Char` -/

/-- Tests whether the char list `p` is an initial segment of `l`. -/
def takesPrefix : List Char → List Char → Bool
  | [], _ => true
  | _ :: _, [] => false
  | p :: ps, c :: cs => p == c && takesPrefix ps cs

/-- Python `sub in s` for a nonempty `sub`: some occurrence of `sub` in `l`. -/
def containsSub (sub : List Char) : List Char → Bool
  | [] => takesPrefix sub []
  | c :: rest => takesPrefix sub (c :: rest) || containsSub sub rest

/-- Python `s.split(sep)` for a single-character separator `sep`. -/
def splitCh (sep : Char) : List Char → List (List Char)
  | [] => [[]]
  | c :: rest =>
    if c == sep then [] :: splitCh sep rest
    else
      match splitCh sep rest with
      | [] => [[c]]
      | p :: ps => (c :: p) :: ps

/-- Fuelled worker for `removeAll`; the fuel is an upper bound on the input
length, so it never runs out on the initial call. -/
def removeAllGo (sub : List Char) : ℕ → List Char → List Char
  | _, [] => []
  | 0, l => l
  | fuel + 1, c :: rest =>
    if takesPrefix sub (c :: rest) then removeAllGo sub fuel (rest.drop (sub.length - 1))
    else c :: removeAllGo sub fuel rest

/-- Python `s.replace` with the empty replacement, for a nonempty `sub`:
removes every (non-overlapping, leftmost-first) occurrence of `sub`. -/
def removeAll (sub l : List Char) : List Char := removeAllGo sub l.length l

/-- Whitespace recognised by Python `str.strip`. -/
def isSpaceChar (c : Char) : Bool := c == ' ' || c == '\t' || c == '\n' || c == '\r'

/-- Python `s.strip()`. -/
def pyStrip (l : List Char) : List Char :=
  ((l.dropWhile isSpaceChar).reverse.dropWhile isSpaceChar).reverse

/-- Python `s.lower()` (ASCII, which is all the source ever feeds it). -/
def pyLower (l : List Char) : List Char := l.map Char.toLower

/-- Python `s.lower()` at `String` level. -/
def lowerStr (s : String) : String := String.mk (pyLower s.data)

/-- Python `s.capitalize()`. -/
def pyCapitalize (s : String) : String :=
  match s.data with
  | [] => ""
  | c :: cs => String.mk (c.toUpper :: cs.map Char.toLower)

/-! ### Python numeric parsing -/

/-- Numeric value of a list of decimal digit characters. -/
def digitsVal (l : List Char) : ℕ := l.foldl (fun a c => a * 10 + (c.toNat - 48)) 0

/-- Every character is a decimal digit. -/
def allDigits (l : List Char) : Bool := l.all (·.isDigit)

/-- Unsigned part of Python `float(s)`: digits with at most one decimal
point (exponents are never used by the source inputs and are not
modelled). -/
def parseUFloat (l : List Char) : Option ℚ :=
  match splitCh '.' l with
  | [ds] => if ds ≠ [] ∧ allDigits ds then some (digitsVal ds) else none
  | [ds, fs] =>
    if (ds ≠ [] ∨ fs ≠ []) ∧ allDigits ds ∧ allDigits fs then
      some ((digitsVal ds : ℚ) + (digitsVal fs : ℚ) / (10 ^ fs.length))
    else none
  | _ => none

/-- Python `float(s)`: strip, optional sign, unsigned decimal. -/
def parseFloatL (l : List Char) : Option ℚ :=
  match pyStrip l with
  | '-' :: rest => (parseUFloat rest).map (fun q => -q)
  | '+' :: rest => parseUFloat rest
  | l' => parseUFloat l'

/-- Python `int(s)`: strip, optional sign, digits only. -/
def parseIntL (l : List Char) : Option ℤ :=
  match pyStrip l with
  | '-' :: rest => if rest ≠ [] ∧ allDigits rest then some (-(digitsVal rest : ℤ)) else none
  | '+' :: rest => if rest ≠ [] ∧ allDigits rest then some (digitsVal rest : ℤ) else none
  | l' => if l' ≠ [] ∧ allDigits l' then some (digitsVal l' : ℤ) else none

/-- Python `int(x)` on a number: truncation toward zero. -/
def pyInt (q : ℚ) : ℤ := Int.tdiv q.num q.den

/-! ### `WorkoutBuilder.parse_distance` and `WorkoutBuilder.parse_duration` -/

/-- Embeds `WorkoutBuilder.parse_distance` (garmin_workout_builder.py:26-46): a
number is returned as-is; a string containing `-` is split and the second
token is parsed; otherwise the whole string is parsed. -/
def parse_distance : Val → Option ℚ
  | .num q => some q
  | .str s =>
    let l := pyStrip s.data
    if containsSub ['-'] l then parseFloatL (pyStrip ((splitCh '-' l).getD 1 []))
    else parseFloatL l

/-- Range-selection step of `parse_duration` (lines 60-63): on a string
containing `-`, keep `parts[1].strip()`. -/
def range_select (l : List Char) : List Char :=
  if containsSub ['-'] l then pyStrip ((splitCh '-' l).getD 1 []) else l

/-- Unit-parsing tail of `parse_duration` (lines 65-83), applied after the
range selection: `"X min"`, `"X sec"`, `"HH:MM:SS"`/`"MM:SS"`, bare seconds. -/
def parseDurationUnits (u : List Char) : Option ℤ :=
  if containsSub ['m', 'i', 'n'] u then
    (parseFloatL (pyStrip (removeAll ['m', 'i', 'n'] u))).map (fun m => pyInt (m * 60))
  else if containsSub ['s', 'e', 'c'] u then
    (parseFloatL (pyStrip (removeAll ['s', 'e', 'c'] u))).map pyInt
  else if containsSub [':'] u then
    let parts := splitCh ':' u
    if parts.length = 3 then
      match parseIntL (parts.getD 0 []), parseIntL (parts.getD 1 []), parseIntL (parts.getD 2 []) with
      | some h, some m, some s => some (h * 3600 + m * 60 + s)
      | _, _, _ => none
    else if parts.length = 2 then
      match parseIntL (parts.getD 0 []), parseIntL (parts.getD 1 []) with
      | some m, some s => some (m * 60 + s)
      | _, _ => none
    else (parseFloatL u).map pyInt
  else (parseFloatL u).map pyInt

/-- Embeds `WorkoutBuilder.parse_duration` (garmin_workout_builder.py:48-83). -/
def parse_duration (s : String) : Option ℤ :=
  parseDurationUnits (range_select (pyLower (pyStrip s.data)))

/-! ### Paces, speeds and targets
(`WorkoutBuilder.pace_to_speed`, `get_target_speed_zone`, `get_no_target`) -/

/-- The conversion constant `meters_per_mile = 1609.34` (line 102). -/
def metersPerMile : ℚ := 1609.34

/-- The integer `minutes`/`seconds` extraction of `pace_to_speed`
(lines 95-97): `parts = pace_str.split(':')`, `int(parts[0])`,
`int(parts[1])`.  `none` models the `IndexError`/`ValueError` raised on a
string without two leading colon-separated integers. -/
def parsePaceParts (s : String) : Option (ℤ × ℤ) :=
  match splitCh ':' s.data with
  | p0 :: p1 :: _ =>
    match parseIntL p0, parseIntL p1 with
    | some m, some sec => some (m, sec)
    | _, _ => none
  | _ => none

/-- Embeds `WorkoutBuilder.pace_to_speed` (lines 85-105): speed in m/s is
`1609.34 / (minutes*60 + seconds)`, raising `ZeroDivisionError` when the
pace is zero. -/
def pace_to_speed (s : String) : Except PyErr ℚ :=
  match parsePaceParts s with
  | none => .error .parseError
  | some (m, sec) =>
    let pace_seconds_per_mile := m * 60 + sec
    if pace_seconds_per_mile = 0 then .error .zeroDivisionError
    else .ok (metersPerMile / (pace_seconds_per_mile : ℚ))

/-- A Garmin target-type dictionary as built by `get_target_speed_zone` /
`get_no_target` (the optional value fields are popped to step level by
`create_executable_step`). -/
structure Target where
  workoutTargetTypeId : ℕ
  workoutTargetTypeKey : String
  targetValueOne : Option ℚ
  targetValueTwo : Option ℚ
  deriving DecidableEq

/-- Embeds `WorkoutBuilder.get_no_target` (lines 136-141). -/
def get_no_target : Target :=
  { workoutTargetTypeId := 1, workoutTargetTypeKey := "no.target",
    targetValueOne := none, targetValueTwo := none }

/-- Python dict lookup `pace_zone in self.paces` / `self.paces[pace_zone]`,
with the pace table as an association list. -/
def lookupPace (paces : List (String × String)) (zone : String) : Option String :=
  (paces.find? (fun p => p.fst == zone)).map Prod.snd

/-- Embeds `WorkoutBuilder.get_target_speed_zone` (lines 107-134): an unknown zone
degrades to `get_no_target`; a known zone gives target-type id 6 with a
±5% speed band. -/
def get_target_speed_zone (paces : List (String × String)) (pace_zone : String) :
    Except PyErr Target :=
  match lookupPace paces pace_zone with
  | none => .ok get_no_target
  | some pace_str =>
    match pace_to_speed pace_str with
    | .error e => .error e
    | .ok speed_mps =>
      .ok { workoutTargetTypeId := 6, workoutTargetTypeKey := "pace.zone",
            targetValueOne := some (speed_mps * 0.95),
            targetValueTwo := some (speed_mps * 1.05) }

/-! ### Workout steps
(`create_executable_step`, `create_repeat_group`) -/

/-- An `ExecutableStepDTO` as assembled by `create_executable_step`
(lines 143-195); the value fields of the target are popped to step level. -/
structure ExecStep where
  stepOrder : ℕ
  stepTypeId : ℕ
  stepTypeKey : String
  conditionTypeId : ℕ
  conditionTypeKey : String
  endConditionValue : ℚ
  targetTypeId : ℕ
  targetTypeKey : String
  targetValueOne : Option ℚ
  targetValueTwo : Option ℚ
  deriving DecidableEq

/-- A workout step: either a leaf `ExecutableStepDTO` or a
`RepeatGroupDTO` (lines 197-219) containing leaf steps. -/
inductive WStep where
  | exec (s : ExecStep)
  | repeatGroup (stepOrder : ℕ) (numberOfIterations : ℤ) (workoutSteps : List ExecStep)
  deriving DecidableEq

/-- Embeds `WorkoutBuilder.create_executable_step` (lines 143-195). -/
def create_executable_step (step_order : ℕ) (step_type_id : ℕ) (step_type_key : String)
    (end_condition_id : ℕ) (end_condition_key : String) (end_condition_value : ℚ)
    (target_type : Option Target) : ExecStep :=
  let target := target_type.getD get_no_target
  { stepOrder := step_order, stepTypeId := step_type_id, stepTypeKey := step_type_key,
    conditionTypeId := end_condition_id, conditionTypeKey := end_condition_key,
    endConditionValue := end_condition_value,
    targetTypeId := target.workoutTargetTypeId,
    targetTypeKey := target.workoutTargetTypeKey,
    targetValueOne := target.targetValueOne,
    targetValueTwo := target.targetValueTwo }

/-- Embeds `WorkoutBuilder.create_repeat_group` (lines 197-219). -/
def create_repeat_group (step_order : ℕ) (iterations : ℤ) (steps : List ExecStep) : WStep :=
  .repeatGroup step_order iterations steps

/-! ### The YAML workout data model
A missing dictionary key is `none`.  Fields keep the YAML key names, except
`repeat` (a Lean keyword, rendered `rep`) and `structure` (likewise,
rendered `struct`). -/

/-- A `warmup`/`cooldown` phase: optional `distance` and `pace`. -/
structure PhaseSpec where
  distance : Option Val
  pace : Option String
  deriving DecidableEq

/-- The `work` sub-phase of `intervals`: optional `duration`, `distance`
(numeric in the YAML), `unit` and `pace`. -/
structure WorkSpec where
  duration : Option String
  distance : Option ℚ
  unit : Option String
  pace : Option String
  deriving DecidableEq

/-- The `rest` sub-phase of `intervals`: optional `type` and `duration`. -/
structure RestSpec where
  type : Option String
  duration : Option String
  deriving DecidableEq

/-- The `intervals` phase: `work`, `rest` and `repeat` (field `rep`). -/
structure IntervalsSpec where
  work : Option WorkSpec
  rest : Option RestSpec
  rep : Option ℤ
  deriving DecidableEq

/-- The `main` phase: optional `duration`, `distance` and `pace`. -/
structure MainSpec where
  duration : Option String
  distance : Option Val
  pace : Option String
  deriving DecidableEq

/-- The `structure` dictionary of a structured workout. -/
structure StructureSpec where
  warmup : Option PhaseSpec
  intervals : Option IntervalsSpec
  main : Option MainSpec
  cooldown : Option PhaseSpec
  deriving DecidableEq

/-- A workout dictionary from the YAML plan: `type`, `description`,
`distance` and the optional `structure` (field `struct`). -/
structure WorkoutData where
  type : Option String
  description : Option String
  distance : Option Val
  struct : Option StructureSpec
  deriving DecidableEq

/-! ### `WorkoutBuilder._build_structured_workout` (lines 285-431) -/

/-- The warmup/cooldown compilation (lines 294-310 and 414-429), shared
here because the two blocks differ only in the step type ids. -/
def phase_step (paces : List (String × String)) (ph : PhaseSpec) (step_order : ℕ)
    (step_type_id : ℕ) (step_type_key : String) : Except PyErr ExecStep :=
  match parse_distance (ph.distance.getD (.num 2)) with
  | none => .error .parseError
  | some distance_miles =>
    match get_target_speed_zone paces (ph.pace.getD "general_aerobic") with
    | .error e => .error e
    | .ok tgt =>
      .ok (create_executable_step step_order step_type_id step_type_key 3 "distance"
        (distance_miles * metersPerMile) (some tgt))

/-- The work-interval compilation (lines 317-351): time-based when a
`duration` is given, otherwise distance-based with default `600`,
multiplied by 1609.34 unless the unit flag says meters. -/
def work_step (paces : List (String × String)) (work : WorkSpec) : Except PyErr ExecStep :=
  match work.duration with
  | some duration_str =>
    match parse_duration duration_str with
    | none => .error .parseError
    | some duration_secs =>
      match get_target_speed_zone paces (work.pace.getD "lactate_threshold") with
      | .error e => .error e
      | .ok tgt =>
        .ok (create_executable_step 1 3 "interval" 2 "time" (duration_secs : ℚ) (some tgt))
  | none =>
    let work_distance := work.distance.getD 600
    let work_distance_meters :=
      if work.unit == some "meters" then work_distance else work_distance * metersPerMile
    match get_target_speed_zone paces (work.pace.getD "vo2max") with
    | .error e => .error e
    | .ok tgt =>
      .ok (create_executable_step 1 3 "interval" 3 "distance" work_distance_meters (some tgt))

/-- The rest-interval compilation (lines 353-370): a recovery step only
when the rest type is jog, time-terminated, defaulting to 150 seconds,
explicitly untargeted. -/
def rest_steps (rest : RestSpec) : Except PyErr (List ExecStep) :=
  if rest.type == some "jog" then
    match rest.duration with
    | some d =>
      match parse_duration d with
      | none => .error .parseError
      | some rest_duration =>
        .ok [create_executable_step 2 4 "recovery" 2 "time" (rest_duration : ℚ)
          (some get_no_target)]
    | none =>
      .ok [create_executable_step 2 4 "recovery" 2 "time" (150 : ℚ) (some get_no_target)]
  else .ok []

/-- The intervals compilation (lines 312-379): work step, optional rest
step, wrapped in a repeat group with iteration count `repeat` (default 1). -/
def intervals_group (paces : List (String × String)) (iv : IntervalsSpec) (step_order : ℕ) :
    Except PyErr WStep :=
  match work_step paces (iv.work.getD ⟨none, none, none, none⟩) with
  | .error e => .error e
  | .ok w =>
    match rest_steps (iv.rest.getD ⟨none, none⟩) with
    | .error e => .error e
    | .ok rs => .ok (create_repeat_group step_order (iv.rep.getD 1) (w :: rs))

/-- The main-phase compilation (lines 381-412): a single leaf, duration-
or distance-terminated, or no step when neither field is present. -/
def main_steps (paces : List (String × String)) (m : MainSpec) (step_order : ℕ) :
    Except PyErr (List WStep) :=
  match m.duration with
  | some duration_str =>
    match parse_duration duration_str with
    | none => .error .parseError
    | some duration_secs =>
      match get_target_speed_zone paces (m.pace.getD "lactate_threshold") with
      | .error e => .error e
      | .ok tgt =>
        .ok [.exec (create_executable_step step_order 3 "interval" 2 "time"
          (duration_secs : ℚ) (some tgt))]
  | none =>
    match m.distance with
    | some dv =>
      match parse_distance dv with
      | none => .error .parseError
      | some distance_miles =>
        match get_target_speed_zone paces (m.pace.getD "marathon_pace") with
        | .error e => .error e
        | .ok tgt =>
          .ok [.exec (create_executable_step step_order 3 "interval" 3 "distance"
            (distance_miles * metersPerMile) (some tgt))]
    | none => .ok []

/-- The `warmup` block (lines 294-310) acting on the accumulated
`(steps, step_order)` pair. -/
def warmupPart (paces : List (String × String)) (st : StructureSpec)
    (acc : List WStep × ℕ) : Except PyErr (List WStep × ℕ) :=
  match st.warmup with
  | none => .ok acc
  | some ph =>
    match phase_step paces ph acc.2 1 "warmup" with
    | .error e => .error e
    | .ok s => .ok (acc.1 ++ [.exec s], acc.2 + 1)

/-- The `intervals` block (lines 312-379) acting on the accumulator. -/
def intervalsPart (paces : List (String × String)) (st : StructureSpec)
    (acc : List WStep × ℕ) : Except PyErr (List WStep × ℕ) :=
  match st.intervals with
  | none => .ok acc
  | some iv =>
    match intervals_group paces iv acc.2 with
    | .error e => .error e
    | .ok g => .ok (acc.1 ++ [g], acc.2 + 1)

/-- The `main` block (lines 381-412) acting on the accumulator; it runs
only when `intervals` is absent, and bumps `step_order` even when it
emits no step, exactly as the source does. -/
def mainPart (paces : List (String × String)) (st : StructureSpec)
    (acc : List WStep × ℕ) : Except PyErr (List WStep × ℕ) :=
  match st.main, st.intervals with
  | some m, none =>
    match main_steps paces m acc.2 with
    | .error e => .error e
    | .ok l => .ok (acc.1 ++ l, acc.2 + 1)
  | _, _ => .ok acc

/-- The `cooldown` block (lines 414-429) acting on the accumulator. -/
def cooldownPart (paces : List (String × String)) (st : StructureSpec)
    (acc : List WStep × ℕ) : Except PyErr (List WStep × ℕ) :=
  match st.cooldown with
  | none => .ok acc
  | some ph =>
    match phase_step paces ph acc.2 2 "cooldown" with
    | .error e => .error e
    | .ok s => .ok (acc.1 ++ [.exec s], acc.2)

/-- Embeds `WorkoutBuilder._build_structured_workout` (lines 285-431): the fixed
phase order warmup → intervals → main → cooldown. -/
def _build_structured_workout (paces : List (String × String)) (st : StructureSpec)
    (start_order : ℕ) : Except PyErr (List WStep) :=
  match warmupPart paces st ([], start_order) with
  | .error e => .error e
  | .ok acc1 =>
    match intervalsPart paces st acc1 with
    | .error e => .error e
    | .ok acc2 =>
      match mainPart paces st acc2 with
      | .error e => .error e
      | .ok acc3 =>
        match cooldownPart paces st acc3 with
        | .error e => .error e
        | .ok acc4 => .ok acc4.1

/-! ### `WorkoutBuilder._build_simple_workout` (lines 433-468) -/

/-- Python truthiness of a YAML scalar: `0`, `0.0` and `""` are falsy. -/
def isFalsy : Val → Bool
  | .num q => q == 0
  | .str s => s == ""

/-- The `pace_zone_map` lookup of `_build_simple_workout` (lines 446-458):
workout type → pace-zone name, defaulting to `general_aerobic`. -/
def pace_zone_map (workout_type : String) : String :=
  if workout_type = "recovery" then "recovery"
  else if workout_type = "general_aerobic" then "general_aerobic"
  else if workout_type = "endurance" then "endurance"
  else if workout_type = "medium_long_run" then "endurance"
  else if workout_type = "long_run" then "endurance"
  else if workout_type = "marathon_pace_run" then "marathon_pace"
  else if workout_type = "lactate_threshold" then "lactate_threshold"
  else if workout_type = "vo2max" then "vo2max"
  else "general_aerobic"

/-- The distance defaulting of `_build_simple_workout` (lines 440-441):
`if not distance: distance = 5` — a falsy (`None`, `0`, `0.0`, `""`) or
missing distance becomes the default 5 miles. -/
def simple_distance (distance : Option Val) : Val :=
  match distance with
  | none => .num 5
  | some v => if isFalsy v then .num 5 else v

/-- Embeds `WorkoutBuilder._build_simple_workout` (lines 433-468): a single
distance-terminated interval step targeted by the pace zone of the type. -/
def _build_simple_workout (paces : List (String × String)) (workout_type : String)
    (distance : Option Val) (start_order : ℕ) : Except PyErr (List WStep) :=
  match parse_distance (simple_distance distance) with
  | none => .error .parseError
  | some distance_miles =>
    match get_target_speed_zone paces (pace_zone_map workout_type) with
    | .error e => .error e
    | .ok tgt =>
      .ok [.exec (create_executable_step start_order 3 "interval" 3 "distance"
        (distance_miles * metersPerMile) (some tgt))]

/-! ### `WorkoutBuilder.build_workout_from_yaml` (lines 221-283) -/

/-- Embeds `WorkoutBuilder._estimate_duration` (lines 470-481): 9 min/mile on a
truthy plain distance, else a fixed 3600 seconds. -/
def _estimate_duration (workout_data : WorkoutData) : Except PyErr ℤ :=
  match workout_data.distance with
  | some v =>
    if isFalsy v then .ok 3600
    else
      match parse_distance v with
      | none => .error .parseError
      | some distance_miles => .ok (pyInt (distance_miles * 9 * 60))
  | none => .ok 3600

/-- One entry of `workoutSegments` (lines 270-280); the sport type fields
are the constants of the source. -/
structure Segment where
  segmentOrder : ℕ
  sportTypeId : ℕ
  sportTypeKey : String
  workoutSteps : List WStep
  deriving DecidableEq

/-- The workout JSON document built by `build_workout_from_yaml`
(lines 261-283). -/
structure WorkoutJson where
  workoutName : String
  description : String
  sportTypeId : ℕ
  sportTypeKey : String
  estimatedDurationInSecs : ℤ
  workoutSegments : List Segment
  deriving DecidableEq

/-- Embeds `WorkoutBuilder.build_workout_from_yaml` (lines 221-283).  The
`workout_date` argument of the source is accepted and, as in the source,
ignored by the document construction. -/
def build_workout_from_yaml (paces : List (String × String)) (workout_data : WorkoutData)
    (workout_date : ℤ) (week_number : ℕ) (day_name : String) : Except PyErr WorkoutJson :=
  let _ := workout_date
  let workout_type := workout_data.type.getD "general_aerobic"
  let description := workout_data.description.getD ""
  let workout_name :=
    "NYC Marathon 2026 - Week " ++ toString week_number ++ " - " ++ pyCapitalize day_name
  match (match workout_data.struct with
         | some st => _build_structured_workout paces st 1
         | none => _build_simple_workout paces workout_type workout_data.distance 1) with
  | .error e => .error e
  | .ok steps =>
    match _estimate_duration workout_data with
    | .error e => .error e
    | .ok estimated_duration =>
      .ok { workoutName := workout_name, description := description,
            sportTypeId := 1, sportTypeKey := "running",
            estimatedDurationInSecs := estimated_duration,
            workoutSegments :=
              [{ segmentOrder := 1, sportTypeId := 1, sportTypeKey := "running",
                 workoutSteps := steps }] }

/-! ### The schedule calculator (`sync_garmin.py`) -/

/-- Gregorian leap year, as in CPython `datetime`. -/
def isLeapYear (y : ℕ) : Bool := (y % 4 == 0 && y % 100 != 0) || y % 400 == 0

/-- Month lengths of year `y`. -/
def monthDays (y : ℕ) : List ℕ :=
  [31, if isLeapYear y then 29 else 28, 31, 30, 31, 30, 31, 31, 30, 31, 30, 31]

/-- Days in year `y` before month `m`. -/
def daysBeforeMonth (y m : ℕ) : ℕ := ((monthDays y).take (m - 1)).sum

/-- Days before January 1 of year `y` (proleptic Gregorian). -/
def daysBeforeYear (y : ℕ) : ℕ := (y - 1) * 365 + (y - 1) / 4 - (y - 1) / 100 + (y - 1) / 400

/-- CPython `date(y, m, d).toordinal()`: day 1 is January 1 of year 1.
Dates are modelled as these ordinals; `timedelta` arithmetic is integer
arithmetic on them. -/
def toordinal (y m d : ℕ) : ℕ := daysBeforeYear y + daysBeforeMonth y m + d

/-- Embeds `GarminTrainingPlanSync.calculate_week_start_date` (sync_garmin.py:
210-226): the race date is the Sunday of week 19; the Sunday of week `n`
is `race_date - (19 - n)` weeks and its Monday is 6 days earlier. -/
def calculate_week_start_date (race_date : ℤ) (week_number : ℤ) : ℤ :=
  race_date - (19 - week_number) * 7 - 6

/-- The `day_offset` dictionary of `get_workout_date` (lines 232-241). -/
def day_offset (d : String) : Option ℤ :=
  if d = "monday" then some 0
  else if d = "tuesday" then some 1
  else if d = "wednesday" then some 2
  else if d = "thursday" then some 3
  else if d = "friday" then some 4
  else if d = "saturday" then some 5
  else if d = "sunday" then some 6
  else none

/-- Embeds `GarminTrainingPlanSync.get_workout_date` (lines 228-247): week start
plus the weekday offset; an unrecognized day name raises `ValueError`. -/
def get_workout_date (race_date : ℤ) (week_number : ℤ) (day_name : String) :
    Except PyErr ℤ :=
  match day_offset (lowerStr day_name) with
  | none => .error .valueError
  | some offset => .ok (calculate_week_start_date race_date week_number + offset)

/-! ### Leaf-step collection, for the target-type invariant -/

/-- The leaf `ExecutableStepDTO`s of a step (a leaf itself, or the
children of a repeat group). -/
def stepLeaves : WStep → List ExecStep
  | .exec s => [s]
  | .repeatGroup _ _ ss => ss

/-- All leaf steps of a workout document. -/
def docLeaves (j : WorkoutJson) : List ExecStep :=
  (j.workoutSegments.map (fun seg => (seg.workoutSteps.map stepLeaves).flatten)).flatten


/-- The target-type invariant for one leaf step: its target-type id is
1 (no target) or 6 (pace zone). -/
def targetOk (e : ExecStep) : Prop := e.targetTypeId = 1 ∨ e.targetTypeId = 6

/-- The target-type invariant for a list of steps: every leaf of every
step satisfies `targetOk`. -/
def stepsTargetsOk (l : List WStep) : Prop :=
  ∀ s ∈ l, ∀ e ∈ stepLeaves s, targetOk e

/-! ## Helper lemmas -/

theorem get_target_speed_zone_id {paces : List (String × String)} {z : String} {t : Target}
    (h : get_target_speed_zone paces z = .ok t) :
    t.workoutTargetTypeId = 1 ∨ t.workoutTargetTypeId = 6 := by
  cases hl : lookupPace paces z with
  | none =>
    simp only [get_target_speed_zone, hl, Except.ok.injEq] at h
    subst h
    exact Or.inl rfl
  | some ps =>
    cases hp : pace_to_speed ps with
    | error e => simp [get_target_speed_zone, hl, hp] at h
    | ok v =>
      simp only [get_target_speed_zone, hl, hp, Except.ok.injEq] at h
      subst h
      exact Or.inr rfl

theorem create_executable_step_targetTypeId (o tid : ℕ) (tk : String) (cid : ℕ)
    (ck : String) (v : ℚ) (t : Target) :
    (create_executable_step o tid tk cid ck v (some t)).targetTypeId =
      t.workoutTargetTypeId := rfl

theorem phase_step_targetOk {paces : List (String × String)} {ph : PhaseSpec} {o tid : ℕ}
    {tk : String} {s : ExecStep} (h : phase_step paces ph o tid tk = .ok s) : targetOk s := by
  cases hd : parse_distance (ph.distance.getD (.num 2)) with
  | none => simp [phase_step, hd] at h
  | some miles =>
    cases ht : get_target_speed_zone paces (ph.pace.getD "general_aerobic") with
    | error e => simp [phase_step, hd, ht] at h
    | ok tgt =>
      simp only [phase_step, hd, ht, Except.ok.injEq] at h
      subst h
      exact get_target_speed_zone_id ht

theorem work_step_targetOk {paces : List (String × String)} {work : WorkSpec}
    {s : ExecStep} (h : work_step paces work = .ok s) : targetOk s := by
  cases hdur : work.duration with
  | some duration_str =>
    cases hd : parse_duration duration_str with
    | none => simp [work_step, hdur, hd] at h
    | some secs =>
      cases ht : get_target_speed_zone paces (work.pace.getD "lactate_threshold") with
      | error e => simp [work_step, hdur, hd, ht] at h
      | ok tgt =>
        simp only [work_step, hdur, hd, ht, Except.ok.injEq] at h
        subst h
        exact get_target_speed_zone_id ht
  | none =>
    cases ht : get_target_speed_zone paces (work.pace.getD "vo2max") with
    | error e => simp [work_step, hdur, ht] at h
    | ok tgt =>
      simp only [work_step, hdur, ht, Except.ok.injEq] at h
      subst h
      exact get_target_speed_zone_id ht

theorem rest_steps_targetOk {rest : RestSpec} {l : List ExecStep}
    (h : rest_steps rest = .ok l) : ∀ e ∈ l, targetOk e := by
  by_cases hj : rest.type == some "jog"
  · cases hdur : rest.duration with
    | some d =>
      cases hd : parse_duration d with
      | none => simp [rest_steps, hj, hdur, hd] at h
      | some rd =>
        simp only [rest_steps, hj, if_true, hdur, hd, Except.ok.injEq] at h
        subst h
        intro e he
        simp only [List.mem_singleton] at he
        subst he
        exact Or.inl rfl
    | none =>
      simp only [rest_steps, hj, if_true, hdur, Except.ok.injEq] at h
      subst h
      intro e he
      simp only [List.mem_singleton] at he
      subst he
      exact Or.inl rfl
  · simp only [rest_steps, hj, Bool.false_eq_true, if_false, Except.ok.injEq] at h
    subst h
    intro e he
    exact absurd he (List.not_mem_nil e)

theorem intervals_group_targetOk {paces : List (String × String)} {iv : IntervalsSpec}
    {o : ℕ} {g : WStep} (h : intervals_group paces iv o = .ok g) :
    ∀ e ∈ stepLeaves g, targetOk e := by
  cases hw : work_step paces (iv.work.getD ⟨none, none, none, none⟩) with
  | error e => simp [intervals_group, hw] at h
  | ok w =>
    cases hr : rest_steps (iv.rest.getD ⟨none, none⟩) with
    | error e => simp [intervals_group, hw, hr] at h
    | ok rs =>
      simp only [intervals_group, hw, hr, Except.ok.injEq] at h
      subst h
      intro e he
      simp only [create_repeat_group, stepLeaves, List.mem_cons] at he
      cases he with
      | inl he => subst he; exact work_step_targetOk hw
      | inr he => exact rest_steps_targetOk hr e he

theorem main_steps_targetOk {paces : List (String × String)} {m : MainSpec} {o : ℕ}
    {l : List WStep} (h : main_steps paces m o = .ok l) : stepsTargetsOk l := by
  cases hdur : m.duration with
  | some duration_str =>
    cases hd : parse_duration duration_str with
    | none => simp [main_steps, hdur, hd] at h
    | some secs =>
      cases ht : get_target_speed_zone paces (m.pace.getD "lactate_threshold") with
      | error e => simp [main_steps, hdur, hd, ht] at h
      | ok tgt =>
        simp only [main_steps, hdur, hd, ht, Except.ok.injEq] at h
        subst h
        intro s hs e he
        simp only [List.mem_singleton] at hs
        subst hs
        simp only [stepLeaves, List.mem_singleton] at he
        subst he
        exact get_target_speed_zone_id ht
  | none =>
    cases hdist : m.distance with
    | some dv =>
      cases hd : parse_distance dv with
      | none => simp [main_steps, hdur, hdist, hd] at h
      | some miles =>
        cases ht : get_target_speed_zone paces (m.pace.getD "marathon_pace") with
        | error e => simp [main_steps, hdur, hdist, hd, ht] at h
        | ok tgt =>
          simp only [main_steps, hdur, hdist, hd, ht, Except.ok.injEq] at h
          subst h
          intro s hs e he
          simp only [List.mem_singleton] at hs
          subst hs
          simp only [stepLeaves, List.mem_singleton] at he
          subst he
          exact get_target_speed_zone_id ht
    | none =>
      simp only [main_steps, hdur, hdist, Except.ok.injEq] at h
      subst h
      intro s hs
      exact absurd hs (List.not_mem_nil s)

theorem stepsTargetsOk_nil : stepsTargetsOk [] := by
  intro s hs
  exact absurd hs (List.not_mem_nil s)

theorem stepsTargetsOk_append {a b : List WStep} (ha : stepsTargetsOk a)
    (hb : stepsTargetsOk b) : stepsTargetsOk (a ++ b) := by
  intro s hs
  rcases List.mem_append.mp hs with hmem | hmem
  · exact ha s hmem
  · exact hb s hmem

theorem warmupPart_targetOk {paces : List (String × String)} {st : StructureSpec}
    {acc acc' : List WStep × ℕ} (h : warmupPart paces st acc = .ok acc')
    (hacc : stepsTargetsOk acc.1) : stepsTargetsOk acc'.1 := by
  cases hw : st.warmup with
  | none =>
    simp only [warmupPart, hw, Except.ok.injEq] at h
    subst h
    exact hacc
  | some ph =>
    cases hp : phase_step paces ph acc.2 1 "warmup" with
    | error e => simp [warmupPart, hw, hp] at h
    | ok s =>
      simp only [warmupPart, hw, hp, Except.ok.injEq] at h
      subst h
      refine stepsTargetsOk_append hacc ?_
      intro s' hs' e he
      simp only [List.mem_singleton] at hs'
      subst hs'
      simp only [stepLeaves, List.mem_singleton] at he
      subst he
      exact phase_step_targetOk hp

theorem intervalsPart_targetOk {paces : List (String × String)} {st : StructureSpec}
    {acc acc' : List WStep × ℕ} (h : intervalsPart paces st acc = .ok acc')
    (hacc : stepsTargetsOk acc.1) : stepsTargetsOk acc'.1 := by
  cases hi : st.intervals with
  | none =>
    simp only [intervalsPart, hi, Except.ok.injEq] at h
    subst h
    exact hacc
  | some iv =>
    cases hg : intervals_group paces iv acc.2 with
    | error e => simp [intervalsPart, hi, hg] at h
    | ok g =>
      simp only [intervalsPart, hi, hg, Except.ok.injEq] at h
      subst h
      refine stepsTargetsOk_append hacc ?_
      intro s' hs' e he
      simp only [List.mem_singleton] at hs'
      subst hs'
      exact intervals_group_targetOk hg e he

theorem mainPart_targetOk {paces : List (String × String)} {st : StructureSpec}
    {acc acc' : List WStep × ℕ} (h : mainPart paces st acc = .ok acc')
    (hacc : stepsTargetsOk acc.1) : stepsTargetsOk acc'.1 := by
  cases hm : st.main with
  | none =>
    simp only [mainPart, hm, Except.ok.injEq] at h
    subst h
    exact hacc
  | some m =>
    cases hi : st.intervals with
    | some iv =>
      simp only [mainPart, hm, hi, Except.ok.injEq] at h
      subst h
      exact hacc
    | none =>
      cases hms : main_steps paces m acc.2 with
      | error e => simp [mainPart, hm, hi, hms] at h
      | ok l =>
        simp only [mainPart, hm, hi, hms, Except.ok.injEq] at h
        subst h
        exact stepsTargetsOk_append hacc (main_steps_targetOk hms)

theorem cooldownPart_targetOk {paces : List (String × String)} {st : StructureSpec}
    {acc acc' : List WStep × ℕ} (h : cooldownPart paces st acc = .ok acc')
    (hacc : stepsTargetsOk acc.1) : stepsTargetsOk acc'.1 := by
  cases hw : st.cooldown with
  | none =>
    simp only [cooldownPart, hw, Except.ok.injEq] at h
    subst h
    exact hacc
  | some ph =>
    cases hp : phase_step paces ph acc.2 2 "cooldown" with
    | error e => simp [cooldownPart, hw, hp] at h
    | ok s =>
      simp only [cooldownPart, hw, hp, Except.ok.injEq] at h
      subst h
      refine stepsTargetsOk_append hacc ?_
      intro s' hs' e he
      simp only [List.mem_singleton] at hs'
      subst hs'
      simp only [stepLeaves, List.mem_singleton] at he
      subst he
      exact phase_step_targetOk hp

theorem _build_structured_workout_targetOk {paces : List (String × String)}
    {st : StructureSpec} {so : ℕ} {l : List WStep}
    (h : _build_structured_workout paces st so = .ok l) : stepsTargetsOk l := by
  cases h1 : warmupPart paces st ([], so) with
  | error e => simp [_build_structured_workout, h1] at h
  | ok acc1 =>
    cases h2 : intervalsPart paces st acc1 with
    | error e => simp [_build_structured_workout, h1, h2] at h
    | ok acc2 =>
      cases h3 : mainPart paces st acc2 with
      | error e => simp [_build_structured_workout, h1, h2, h3] at h
      | ok acc3 =>
        cases h4 : cooldownPart paces st acc3 with
        | error e => simp [_build_structured_workout, h1, h2, h3, h4] at h
        | ok acc4 =>
          simp only [_build_structured_workout, h1, h2, h3, h4, Except.ok.injEq] at h
          subst h
          exact cooldownPart_targetOk h4 (mainPart_targetOk h3 (intervalsPart_targetOk h2
            (warmupPart_targetOk h1 stepsTargetsOk_nil)))

theorem _build_simple_workout_targetOk {paces : List (String × String)} {wt : String}
    {d : Option Val} {so : ℕ} {l : List WStep}
    (h : _build_simple_workout paces wt d so = .ok l) : stepsTargetsOk l := by
  cases hd : parse_distance (simple_distance d) with
  | none => simp [_build_simple_workout, hd] at h
  | some miles =>
    cases ht : get_target_speed_zone paces (pace_zone_map wt) with
    | error e => simp [_build_simple_workout, hd, ht] at h
    | ok tgt =>
      simp only [_build_simple_workout, hd, ht, Except.ok.injEq] at h
      subst h
      intro s hs e he
      simp only [List.mem_singleton] at hs
      subst hs
      simp only [stepLeaves, List.mem_singleton] at he
      subst he
      exact get_target_speed_zone_id ht

theorem build_workout_from_yaml_targetOk {paces : List (String × String)}
    {wd : WorkoutData} {date : ℤ} {wk : ℕ} {day : String} {j : WorkoutJson}
    (h : build_workout_from_yaml paces wd date wk day = .ok j) :
    ∀ e ∈ docLeaves j, targetOk e := by
  cases hsteps : (match wd.struct with
                  | some st => _build_structured_workout paces st 1
                  | none => _build_simple_workout paces (wd.type.getD "general_aerobic")
                      wd.distance 1) with
  | error e => simp [build_workout_from_yaml, hsteps] at h
  | ok steps =>
    have hok : stepsTargetsOk steps := by
      cases hst : wd.struct with
      | some st => rw [hst] at hsteps; exact _build_structured_workout_targetOk hsteps
      | none => rw [hst] at hsteps; exact _build_simple_workout_targetOk hsteps
    cases hest : _estimate_duration wd with
    | error e => simp [build_workout_from_yaml, hsteps, hest] at h
    | ok est =>
      simp only [build_workout_from_yaml, hsteps, hest, Except.ok.injEq] at h
      subst h
      intro e hmem
      simp only [docLeaves, List.map_cons, List.map_nil, List.flatten_cons,
        List.flatten_nil, List.append_nil, List.mem_flatten, List.mem_map] at hmem
      rcases hmem with ⟨ls, ⟨s, hs, rfl⟩, he⟩
      exact hok s hs e he

theorem containsSub_single_cons (x c : Char) (l : List Char) :
    containsSub [x] (c :: l) = ((x == c) || containsSub [x] l) := by
  simp [containsSub, takesPrefix]

theorem splitCh_of_not_contains {sep : Char} {l : List Char}
    (h : containsSub [sep] l = false) : splitCh sep l = [l] := by
  induction l with
  | nil => rfl
  | cons c rest ih =>
    rw [containsSub_single_cons, Bool.or_eq_false_iff] at h
    have h1 : (c == sep) = false :=
      beq_eq_false_iff_ne.mpr (Ne.symm (beq_eq_false_iff_ne.mp h.1))
    simp [splitCh, h1, ih h.2]

theorem containsSub_append_self (sep : Char) (a b : List Char) :
    containsSub [sep] (a ++ sep :: b) = true := by
  induction a with
  | nil => simp [containsSub, takesPrefix]
  | cons c rest ih => simp [containsSub_single_cons, ih]

theorem splitCh_append {sep : Char} {a : List Char} (b : List Char)
    (h : containsSub [sep] a = false) :
    splitCh sep (a ++ sep :: b) = a :: splitCh sep b := by
  induction a with
  | nil => simp [splitCh]
  | cons c rest ih =>
    rw [containsSub_single_cons, Bool.or_eq_false_iff] at h
    have h1 : (c == sep) = false :=
      beq_eq_false_iff_ne.mpr (Ne.symm (beq_eq_false_iff_ne.mp h.1))
    simp [splitCh, h1, ih h.2]

theorem range_select_append {a b : List Char} (ha : containsSub ['-'] a = false)
    (hb : containsSub ['-'] b = false) :
    range_select (a ++ '-' :: b) = pyStrip b := by
  unfold range_select
  rw [containsSub_append_self, if_pos rfl, splitCh_append b ha,
    splitCh_of_not_contains hb]
  rfl

/-! ## The claims -/

/-- C1: the week-1 Tuesday lactate-threshold workout — structure
`{intervals: {work: {duration: "20-25 min", pace: "lactate_threshold"},
rest: {type: "jog"}, repeat: 3}}` against pace table
`{lactate_threshold: "6:30"}` — compiles to exactly one top-level step: a
repeat group with `numberOfIterations = 3` holding, in order, a
time-terminated work leaf of 1500 seconds with a pace-zone target
(target-type id 6) and a time-terminated recovery leaf of 150 seconds with
the no-target type (target-type id 1). -/
theorem c1_lt_intervals_compiled :
    _build_structured_workout [("lactate_threshold", "6:30")]
      { warmup := none,
        intervals := some
          { work := some
              { duration := some "20-25 min", distance := none, unit := none,
                pace := some "lactate_threshold" },
            rest := some { type := some "jog", duration := none },
            rep := some 3 },
        main := none, cooldown := none } 1 =
    .ok [WStep.repeatGroup 1 3
      [{ stepOrder := 1, stepTypeId := 3, stepTypeKey := "interval",
         conditionTypeId := 2, conditionTypeKey := "time", endConditionValue := 1500,
         targetTypeId := 6, targetTypeKey := "pace.zone",
         targetValueOne := some (metersPerMile / 390 * 0.95),
         targetValueTwo := some (metersPerMile / 390 * 1.05) },
       { stepOrder := 2, stepTypeId := 4, stepTypeKey := "recovery",
         conditionTypeId := 2, conditionTypeKey := "time", endConditionValue := 150,
         targetTypeId := 1, targetTypeKey := "no.target",
         targetValueOne := none, targetValueTwo := none }]] := by decide

/-- C2 counterexample: a `rest`-typed workout given to
`build_workout_from_yaml` does NOT produce a document with zero workout
steps — it falls through to the simple-workout path and produces exactly
one step. -/
theorem c2_rest_one_step_counterexample :
    (build_workout_from_yaml []
        { type := some "rest", description := none, distance := none, struct := none }
        0 1 "monday").map
      (fun j => (j.workoutSegments.map (fun seg => seg.workoutSteps.length)).sum) =
    .ok 1 ∧ (1 : ℕ) ≠ 0 := by decide

/-- C2 amended: a `rest`-typed workout (no structure, no distance) is
compiled like an unknown simple type: one default 5-mile
distance-terminated step targeted at the `general_aerobic` zone.  (The
callers in `sync_garmin.py` skip rest days before ever invoking the
compiler.) -/
theorem c2_rest_amended (paces : List (String × String)) (wk : ℕ) (day : String)
    (date : ℤ) (t : Target)
    (ht : get_target_speed_zone paces "general_aerobic" = .ok t) :
    build_workout_from_yaml paces
      { type := some "rest", description := none, distance := none, struct := none }
      date wk day =
    .ok { workoutName := "NYC Marathon 2026 - Week " ++ toString wk ++ " - " ++
            pyCapitalize day,
          description := "", sportTypeId := 1, sportTypeKey := "running",
          estimatedDurationInSecs := 3600,
          workoutSegments := [{ segmentOrder := 1, sportTypeId := 1,
                                sportTypeKey := "running",
                                workoutSteps :=
                                  [.exec (create_executable_step 1 3 "interval" 3
                                    "distance" (5 * metersPerMile) (some t))] }] } := by
  have h5 : parse_distance (simple_distance none) = some 5 := by decide
  have hz : pace_zone_map "rest" = "general_aerobic" := by decide
  simp only [build_workout_from_yaml, _build_simple_workout, _estimate_duration,
    Option.getD_some, Option.getD_none, hz, h5, ht]

/-- C2 amended, witness at the empty pace table (where `general_aerobic`
resolves to the no-target shape). -/
theorem c2_rest_amended_witness :
    build_workout_from_yaml []
      { type := some "rest", description := none, distance := none, struct := none }
      0 1 "monday" =
    .ok { workoutName := "NYC Marathon 2026 - Week " ++ toString (1 : ℕ) ++ " - " ++
            pyCapitalize "monday",
          description := "", sportTypeId := 1, sportTypeKey := "running",
          estimatedDurationInSecs := 3600,
          workoutSegments := [{ segmentOrder := 1, sportTypeId := 1,
                                sportTypeKey := "running",
                                workoutSteps :=
                                  [.exec (create_executable_step 1 3 "interval" 3
                                    "distance" (5 * metersPerMile)
                                    (some get_no_target))] }] } :=
  c2_rest_amended [] 1 "monday" 0 get_no_target (by decide)

/-- C3 counterexample: on the descending range `"25-20 min"` the parser
returns 1200 seconds — the second bound, not the maximum (which would be
1500). -/
theorem c3_descending_range_counterexample :
    parse_duration "25-20 min" = some 1200 ∧ parse_duration "25-20 min" ≠ some 1500 := by
  decide

/-- C3 amended: on a hyphen range the parsers keep the SECOND token
(which is the upper bound only when the range is written ascending):
`range_select` on `a ++ "-" ++ b` keeps `b` stripped, and in particular
`parse_duration "20-25 min" = 1500` and `parse_distance "8-9" = 9`. -/
theorem c3_range_second_token :
    (∀ a b : List Char, containsSub ['-'] a = false → containsSub ['-'] b = false →
      range_select (a ++ '-' :: b) = pyStrip b) ∧
    parse_duration "20-25 min" = some 1500 ∧
    parse_distance (.str "8-9") = some 9 :=
  ⟨fun _ _ ha hb => range_select_append ha hb, by decide, by decide⟩

/-- C3 amended, witness: the general second-token lemma applied to the
concrete descending range `"25" ++ "-" ++ "20 min"`. -/
theorem c3_range_second_token_witness :
    range_select ("25".data ++ '-' :: "20 min".data) = pyStrip "20 min".data :=
  c3_range_second_token.1 "25".data "20 min".data (by decide) (by decide)

/-- C4 counterexample: with goal date 2026-11-01 and the hard-coded
19-week span, the week-1 Monday is NOT 2026-06-29. -/
theorem c4_week1_not_june29_counterexample :
    calculate_week_start_date (toordinal 2026 11 1) 1 ≠ (toordinal 2026 6 29 : ℤ) := by
  decide

/-- C4 amended: the week-1 Monday is 2026-06-22 (132 days before the
Sunday goal date); 2026-06-29 is the week-2 Monday. -/
theorem c4_week1_june22 :
    calculate_week_start_date (toordinal 2026 11 1) 1 = (toordinal 2026 6 22 : ℤ) ∧
    calculate_week_start_date (toordinal 2026 11 1) 2 = (toordinal 2026 6 29 : ℤ) := by
  decide

/-- C5 counterexample: an intervals phase whose work sub-phase has neither
duration nor distance (nor unit) compiles the default `600` as MILES: the
work leaf is distance-terminated with end-condition value
`600 * 1609.34 = 965604`, not 600 meters. -/
theorem c5_default_work_distance_counterexample :
    _build_structured_workout []
      { warmup := none,
        intervals := some { work := none, rest := none, rep := none },
        main := none, cooldown := none } 1 =
    .ok [WStep.repeatGroup 1 1
      [{ stepOrder := 1, stepTypeId := 3, stepTypeKey := "interval",
         conditionTypeId := 3, conditionTypeKey := "distance",
         endConditionValue := 600 * metersPerMile,
         targetTypeId := 1, targetTypeKey := "no.target",
         targetValueOne := none, targetValueTwo := none }]] ∧
    (600 * metersPerMile : ℚ) = 965604 ∧ (965604 : ℚ) ≠ 600 := by decide

/-- C5 amended: for a work sub-phase with neither duration nor distance,
the work leaf is distance-terminated with end-condition value 600 exactly
when the unit flag says meters; otherwise the default 600 is treated as miles and
multiplied by 1609.34. -/
theorem c5_default_work_distance_amended (paces : List (String × String))
    (work : WorkSpec) (t : Target) (hdur : work.duration = none)
    (hdist : work.distance = none)
    (ht : get_target_speed_zone paces (work.pace.getD "vo2max") = .ok t) :
    work_step paces work =
    .ok (create_executable_step 1 3 "interval" 3 "distance"
      (if work.unit == some "meters" then (600 : ℚ) else 600 * metersPerMile)
      (some t)) := by
  simp only [work_step, hdur, hdist, Option.getD_none, ht]

/-- C5 amended, witness at the meters unit flag (end value 600) against the
empty pace table. -/
theorem c5_default_work_distance_witness :
    work_step [] { duration := none, distance := none, unit := some "meters", pace := none } =
    .ok (create_executable_step 1 3 "interval" 3 "distance"
      (if (({ duration := none, distance := none, unit := some "meters",
              pace := none } : WorkSpec).unit == some "meters") then (600 : ℚ)
       else 600 * metersPerMile)
      (some get_no_target)) :=
  c5_default_work_distance_amended []
    { duration := none, distance := none, unit := some "meters", pace := none }
    get_no_target rfl rfl (by decide)

/-- C6: for a recognized weekday, `get_workout_date` is exactly
`goal − (19 − w) weeks − 6 days + offset(day)` — a pure function of the
goal date, the week number and the weekday — and in particular
`get_workout_date goal 19 "sunday"` is the goal date itself. -/
theorem c6_workout_date_formula :
    (∀ (goal w o : ℤ) (d : String), 1 ≤ w → w ≤ 19 →
      day_offset (lowerStr d) = some o →
      get_workout_date goal w d = .ok (goal - (19 - w) * 7 - 6 + o)) ∧
    (∀ goal : ℤ, get_workout_date goal 19 "sunday" = .ok goal) := by
  constructor
  · intro goal w o d _h1 _h2 ho
    simp only [get_workout_date, ho, calculate_week_start_date]
  · intro goal
    have hs : day_offset (lowerStr "sunday") = some 6 := by decide
    simp only [get_workout_date, hs, calculate_week_start_date, Except.ok.injEq]
    ring

/-- C6 witness: week 2 Tuesday of the 2026-11-01 plan. -/
theorem c6_workout_date_witness :
    get_workout_date (toordinal 2026 11 1) 2 "tuesday" =
      .ok ((toordinal 2026 11 1 : ℤ) - (19 - 2) * 7 - 6 + 1) :=
  c6_workout_date_formula.1 (toordinal 2026 11 1) 2 1 "tuesday" (by decide) (by decide)
    (by decide)

/-- C7: `get_target_speed_zone` never fails on a zone missing from the
pace table — it returns the no-target shape with target-type id 1 — and on
a zone whose pace string parses to a positive `minutes:seconds` pace it
returns target-type id 6 with the speed band
`[speed × 0.95, speed × 1.05]` around `1609.34 / (60·m + s)`. -/
theorem c7_target_resolution :
    (∀ (paces : List (String × String)) (z : String), lookupPace paces z = none →
      get_target_speed_zone paces z = .ok get_no_target ∧
      get_no_target.workoutTargetTypeId = 1) ∧
    (∀ (paces : List (String × String)) (z ps : String) (m sec : ℤ),
      lookupPace paces z = some ps → parsePaceParts ps = some (m, sec) →
      0 < m * 60 + sec →
      get_target_speed_zone paces z =
        .ok { workoutTargetTypeId := 6, workoutTargetTypeKey := "pace.zone",
              targetValueOne :=
                some (metersPerMile / ((m * 60 + sec : ℤ) : ℚ) * 0.95),
              targetValueTwo :=
                some (metersPerMile / ((m * 60 + sec : ℤ) : ℚ) * 1.05) }) := by
  constructor
  · intro paces z h
    exact ⟨by simp only [get_target_speed_zone, h], rfl⟩
  · intro paces z ps m sec hl hp hpos
    have hs : pace_to_speed ps = .ok (metersPerMile / ((m * 60 + sec : ℤ) : ℚ)) := by
      simp only [pace_to_speed, hp]
      rw [if_neg (by omega : ¬(m * 60 + sec = 0))]
    simp only [get_target_speed_zone, hl, hs]

/-- C7 witness: the `lactate_threshold: 6:30` table entry, and an unknown
zone against the same table. -/
theorem c7_target_resolution_witness :
    (get_target_speed_zone [("lactate_threshold", "6:30")] "recovery" =
        .ok get_no_target ∧
      get_no_target.workoutTargetTypeId = 1) ∧
    get_target_speed_zone [("lactate_threshold", "6:30")] "lactate_threshold" =
      .ok { workoutTargetTypeId := 6, workoutTargetTypeKey := "pace.zone",
            targetValueOne :=
              some (metersPerMile / ((6 * 60 + 30 : ℤ) : ℚ) * 0.95),
            targetValueTwo :=
              some (metersPerMile / ((6 * 60 + 30 : ℤ) : ℚ) * 1.05) } :=
  ⟨c7_target_resolution.1 [("lactate_threshold", "6:30")] "recovery" (by decide),
   c7_target_resolution.2 [("lactate_threshold", "6:30")] "lactate_threshold" "6:30"
     6 30 (by decide) (by decide) (by decide)⟩

/-- C8: every leaf step of every workout document the compiler produces —
structured or simple, any pace table — carries target-type id 1 (no
target) or 6 (pace zone); id 4 (heart rate) is never emitted. -/
theorem c8_no_heart_rate_targets (paces : List (String × String)) (wd : WorkoutData)
    (date : ℤ) (wk : ℕ) (day : String) (j : WorkoutJson)
    (h : build_workout_from_yaml paces wd date wk day = .ok j) :
    ∀ e ∈ docLeaves j,
      (e.targetTypeId = 1 ∨ e.targetTypeId = 6) ∧ e.targetTypeId ≠ 4 := by
  intro e he
  have ht := build_workout_from_yaml_targetOk h e he
  unfold targetOk at ht
  refine ⟨ht, ?_⟩
  rcases ht with h1 | h1 <;> omega

/-- C8 witness: the single leaf of the default 5-mile workout built from
an empty workout dictionary against the empty pace table. -/
theorem c8_no_heart_rate_targets_witness :
    (({ stepOrder := 1, stepTypeId := 3, stepTypeKey := "interval",
        conditionTypeId := 3, conditionTypeKey := "distance",
        endConditionValue := 5 * metersPerMile,
        targetTypeId := 1, targetTypeKey := "no.target",
        targetValueOne := none, targetValueTwo := none } : ExecStep).targetTypeId = 1 ∨
      ({ stepOrder := 1, stepTypeId := 3, stepTypeKey := "interval",
         conditionTypeId := 3, conditionTypeKey := "distance",
         endConditionValue := 5 * metersPerMile,
         targetTypeId := 1, targetTypeKey := "no.target",
         targetValueOne := none, targetValueTwo := none } : ExecStep).targetTypeId = 6) ∧
    ({ stepOrder := 1, stepTypeId := 3, stepTypeKey := "interval",
       conditionTypeId := 3, conditionTypeKey := "distance",
       endConditionValue := 5 * metersPerMile,
       targetTypeId := 1, targetTypeKey := "no.target",
       targetValueOne := none, targetValueTwo := none } : ExecStep).targetTypeId ≠ 4 :=
  c8_no_heart_rate_targets []
    { type := none, description := none, distance := none, struct := none }
    0 1 "monday"
    { workoutName := "NYC Marathon 2026 - Week " ++ toString (1 : ℕ) ++ " - " ++
        pyCapitalize "monday",
      description := "", sportTypeId := 1, sportTypeKey := "running",
      estimatedDurationInSecs := 3600,
      workoutSegments := [{ segmentOrder := 1, sportTypeId := 1,
                            sportTypeKey := "running",
                            workoutSteps :=
                              [.exec
                                { stepOrder := 1, stepTypeId := 3,
                                  stepTypeKey := "interval", conditionTypeId := 3,
                                  conditionTypeKey := "distance",
                                  endConditionValue := 5 * metersPerMile,
                                  targetTypeId := 1, targetTypeKey := "no.target",
                                  targetValueOne := none,
                                  targetValueTwo := none }] }] }
    (by decide) _ (by decide)

/-- C9: `pace_to_speed` divides 1609.34 by `60·m + s` with no zero guard:
on `"0:00"` it raises `ZeroDivisionError` (and `get_target_speed_zone` on
a zone mapped to `"0:00"` propagates that error instead of degrading to
no-target), while any parsed pace with positive total seconds yields a
speed. -/
theorem c9_zero_pace_division :
    pace_to_speed "0:00" = .error PyErr.zeroDivisionError ∧
    (∀ (paces : List (String × String)) (z : String),
      lookupPace paces z = some "0:00" →
      get_target_speed_zone paces z = .error PyErr.zeroDivisionError) ∧
    (∀ (s : String) (m sec : ℤ), parsePaceParts s = some (m, sec) →
      0 < m * 60 + sec →
      pace_to_speed s = .ok (metersPerMile / ((m * 60 + sec : ℤ) : ℚ))) := by
  refine ⟨by decide, ?_, ?_⟩
  · intro paces z hl
    have h0 : pace_to_speed "0:00" = .error PyErr.zeroDivisionError := by decide
    simp only [get_target_speed_zone, hl, h0]
  · intro s m sec hp hpos
    simp only [pace_to_speed, hp]
    rw [if_neg (by omega : ¬(m * 60 + sec = 0))]

/-- C9 witness: a pace table mapping `easy` to `"0:00"`, and the positive
pace `"6:30"`. -/
theorem c9_zero_pace_division_witness :
    get_target_speed_zone [("easy", "0:00")] "easy" =
      .error PyErr.zeroDivisionError ∧
    pace_to_speed "6:30" = .ok (metersPerMile / ((6 * 60 + 30 : ℤ) : ℚ)) :=
  ⟨c9_zero_pace_division.2.1 [("easy", "0:00")] "easy" (by decide),
   c9_zero_pace_division.2.2 "6:30" 6 30 (by decide) (by decide)⟩

/-- C10: in simple-workout compilation a falsy distance — absent, null, or
the explicit number 0 — is replaced by the 5-mile default, so the single
compiled step is distance-terminated at `5 × 1609.34 = 8046.7` meters,
never a zero-length step. -/
theorem c10_falsy_distance_default (paces : List (String × String)) (wt : String)
    (d : Option Val) (t : Target) (hd : d = none ∨ d = some (Val.num 0))
    (ht : get_target_speed_zone paces (pace_zone_map wt) = .ok t) :
    _build_simple_workout paces wt d 1 =
      .ok [.exec (create_executable_step 1 3 "interval" 3 "distance"
        (5 * metersPerMile) (some t))] ∧
    (5 * metersPerMile : ℚ) = 8046.7 ∧ (8046.7 : ℚ) ≠ 0 := by
  refine ⟨?_, by norm_num [metersPerMile], by norm_num⟩
  have h5 : parse_distance (simple_distance d) = some 5 := by
    rcases hd with rfl | rfl <;> decide
  simp only [_build_simple_workout, h5, ht]

/-- C10 witness: an explicit `distance: 0` recovery workout against the
empty pace table. -/
theorem c10_falsy_distance_default_witness :
    (_build_simple_workout [] "recovery" (some (Val.num 0)) 1 =
      .ok [.exec (create_executable_step 1 3 "interval" 3 "distance"
        (5 * metersPerMile) (some get_no_target))] ∧
    (5 * metersPerMile : ℚ) = 8046.7 ∧ (8046.7 : ℚ) ≠ 0) :=
  c10_falsy_distance_default [] "recovery" (some (Val.num 0)) get_no_target
    (Or.inr rfl) (by decide)
